import Mathlib

/-!
Shallow embedding of the memory-tiered sync policy engine of
`src/systemmemorymanager.cpp` (class `SystemMemoryManager`): the
cross-platform total-memory probe with its caching layer and the
`calculateSyncConfiguration` tiering function, together with the
Linux `/proc/meminfo` text-parsing fallbacks.

C++ `qint64` arithmetic is modelled with `Int`; C++ integer division
truncates toward zero, which is `Int.tdiv` in Lean.  `qMax`/`qMin` are
`max`/`min`.  The values computed by the embedded code never approach
the 64-bit range (the chosen MB interval is at most 256 before scaling),
so no wrap-around modelling is required.
-/

namespace SystemMemoryManager

/-- Modelled from the spec: `LOW_MEMORY_THRESHOLD_MB` is declared in
`systemmemorymanager.h`, which is not part of the available sources; the
spec's example constants give it the value 4096. -/
def LOW_MEMORY_THRESHOLD_MB : Int := 4096

/-- Modelled from the spec: `HIGH_MEMORY_THRESHOLD_MB` from
`systemmemorymanager.h` (not in the available sources); the spec's
example constants give it the value 16384. -/
def HIGH_MEMORY_THRESHOLD_MB : Int := 16384

/-- Modelled from the spec: `MIN_SYNC_INTERVAL_BYTES` from
`systemmemorymanager.h` (not in the available sources); the spec's
example constants give it 16 MiB. -/
def MIN_SYNC_INTERVAL_BYTES : Int := 16 * 1024 * 1024

/-- Modelled from the spec: `MAX_SYNC_INTERVAL_BYTES` from
`systemmemorymanager.h` (not in the available sources); the spec's
example constants give it 256 MiB. -/
def MAX_SYNC_INTERVAL_BYTES : Int := 256 * 1024 * 1024

/-- Modelled from the spec: `DEFAULT_SYNC_INTERVAL_MS` from
`systemmemorymanager.h` (not in the available sources); the spec gives
it the value 5000 ms. -/
def DEFAULT_SYNC_INTERVAL_MS : Int := 5000

/-- The `SyncConfiguration` struct returned by
`SystemMemoryManager::calculateSyncConfiguration`. -/
structure SyncConfiguration where
  syncIntervalBytes : Int
  syncIntervalMs : Int
  memoryTier : String
deriving Repr, DecidableEq

/-- The pure tiering computation of
`SystemMemoryManager::calculateSyncConfiguration`, as a function of the
total memory figure `totalMemMB` obtained from `getTotalMemoryMB()`.
Mirrors the source line by line: tier selection, `qMax`/`qMin` floors
and caps, conversion to bytes, and the final clamp to
`[MIN_SYNC_INTERVAL_BYTES, MAX_SYNC_INTERVAL_BYTES]`. -/
def calculateSyncConfiguration (totalMemMB : Int) : SyncConfiguration :=
  let stage :=
    if totalMemMB < LOW_MEMORY_THRESHOLD_MB then
      -- Low memory: aggressive syncing to prevent OOM
      (max 16 (Int.tdiv totalMemMB 64), (3000 : Int),
        "Low memory (" ++ toString totalMemMB ++ "MB)")
    else if totalMemMB < HIGH_MEMORY_THRESHOLD_MB then
      -- Medium memory: balanced approach
      (max 32 (Int.tdiv totalMemMB 80), DEFAULT_SYNC_INTERVAL_MS,
        "Medium memory (" ++ toString totalMemMB ++ "MB)")
    else
      -- High memory: conservative syncing for better performance
      (min 256 (max 64 (Int.tdiv totalMemMB 64)), (7000 : Int),
        "High memory (" ++ toString totalMemMB ++ "MB)")
  let syncIntervalBytes := stage.1 * 1024 * 1024
  { syncIntervalBytes :=
      max MIN_SYNC_INTERVAL_BYTES (min MAX_SYNC_INTERVAL_BYTES syncIntervalBytes)
    syncIntervalMs := stage.2.1
    memoryTier := stage.2.2 }

/-! ### Cache state and the public queries

`SystemMemoryManager` is a process-wide singleton whose only mutable
field is `_cachedTotalMemoryMB`, initialised to `-1` (cache absent).
We model the member functions as explicit state passing.  The platform
probes (`getPlatformTotalMemoryMB` / `getPlatformAvailableMemoryMB`) are
external reads; an `Env` record carries the value each would return, and
every query result also reports how many times each probe was invoked,
so that "the probe is invoked at most once" is a provable statement. -/

/-- The mutable state of the `SystemMemoryManager` singleton:
`qint64 _cachedTotalMemoryMB = -1`. -/
structure MgrState where
  cachedTotalMemoryMB : Int
deriving Repr, DecidableEq

/-- The state at process start: cache absent, represented by `-1`. -/
def initialState : MgrState := ⟨-1⟩

/-- The values the platform probes would report if invoked. -/
structure Env where
  platformTotalMemoryMB : Int
  platformAvailableMemoryMB : Int
deriving Repr, DecidableEq

/-- Result of one public query: the returned value, the state after the
call, and how many times each platform probe was invoked during it. -/
structure QueryResult where
  value : Int
  state : MgrState
  totalProbeCalls : Nat
  availProbeCalls : Nat
deriving Repr, DecidableEq

/-- `SystemMemoryManager::getTotalMemoryMB`: if the cache is `-1`,
invoke `getPlatformTotalMemoryMB()`, substitute 4096 when the result is
non-positive, store it, and return it; otherwise return the cache. -/
def getTotalMemoryMB (env : Env) (st : MgrState) : QueryResult :=
  if st.cachedTotalMemoryMB = -1 then
    let detected := env.platformTotalMemoryMB
    let cached := if detected ≤ 0 then 4096 else detected
    { value := cached, state := ⟨cached⟩, totalProbeCalls := 1, availProbeCalls := 0 }
  else
    { value := st.cachedTotalMemoryMB, state := st
      totalProbeCalls := 0, availProbeCalls := 0 }

/-- `SystemMemoryManager::getAvailableMemoryMB`: the source returns
`getTotalMemoryMB()` directly ("we use total memory as the baseline"). -/
def getAvailableMemoryMB (env : Env) (st : MgrState) : QueryResult :=
  getTotalMemoryMB env st

/-- The stateful entry point `calculateSyncConfiguration()`: fetch (and
possibly detect/cache) the total, then run the pure tiering function. -/
def calculateSyncConfigurationM (env : Env) (st : MgrState) :
    SyncConfiguration × MgrState :=
  let r := getTotalMemoryMB env st
  (calculateSyncConfiguration r.value, r.state)

/-- A sequence of `n` consecutive `getTotalMemoryMB()` calls, returning
the final state, the total number of platform-probe invocations across
the sequence, and the list of returned values. -/
def runGetTotalCalls (env : Env) (st : MgrState) :
    Nat → MgrState × Nat × List Int
  | 0 => (st, 0, [])
  | n + 1 =>
    let r := getTotalMemoryMB env st
    let rest := runGetTotalCalls env r.state n
    (rest.1, r.totalProbeCalls + rest.2.1, r.value :: rest.2.2)

/-! ### Platform probes (Linux backend and unknown-platform fallback)

The Linux `getPlatformTotalMemoryMB` tries `sysinfo` first and falls
back to parsing `/proc/meminfo`; `getPlatformAvailableMemoryMB` does the
analogous thing.  The `sysinfo` call is modelled by an
`Option SysInfoResult` (`none` = the call failed), and the meminfo file
by an `Option (List String)` of its lines (`none` = open failed). -/

/-- The fields of `struct sysinfo` the source reads (C `unsigned long`,
held as `Nat`; the realistic values are far below 2^64). -/
structure SysInfoResult where
  totalram : Nat
  freeram : Nat
  bufferram : Nat
  mem_unit : Nat
deriving Repr, DecidableEq

/-- Whitespace for `QRegularExpression("\\s+")` on ASCII text. -/
def isWsChar (c : Char) : Bool :=
  c = ' ' || c = '\t' || c = '\n' || c = '\r' || c = '\x0b' || c = '\x0c'

/-- Worker for `QString::split(QRegularExpression("\\s+"))`: the flag
records whether we are inside a run of whitespace (a token was just
emitted), `cur` accumulates the current token in reverse. -/
def splitGo : List Char → Bool → List Char → List String
  | [], true, _ => [""]
  | [], false, cur => [String.mk cur.reverse]
  | c :: cs, true, _ =>
    if isWsChar c then splitGo cs true [] else splitGo cs false [c]
  | c :: cs, false, cur =>
    if isWsChar c then String.mk cur.reverse :: splitGo cs true []
    else splitGo cs false (c :: cur)

/-- `QString::split(QRegularExpression("\\s+"))`: split on runs of
whitespace, keeping the empty boundary parts Qt keeps by default. -/
def splitWsRuns (s : String) : List String := splitGo s.toList false []

/-- `QString::startsWith`. -/
def strStartsWith (s p : String) : Bool := p.toList.isPrefixOf s.toList

/-- Digit run to `Nat` (most significant first). -/
def digitsToNat : List Char → Nat → Nat
  | [], acc => acc
  | c :: cs, acc => digitsToNat cs (acc * 10 + (c.toNat - 48))

/-- A non-empty all-digit run, or `none`. -/
def parseDigits (cs : List Char) : Option Nat :=
  if cs ≠ [] ∧ cs.all Char.isDigit then some (digitsToNat cs 0) else none

/-- `QString::toLongLong`: optional sign, a non-empty digit run, and the
result must fit in a signed 64-bit integer; `none` models `ok = false`. -/
def toLongLongOpt (s : String) : Option Int :=
  let signed : Option Int :=
    match s.toList with
    | '-' :: rest => (parseDigits rest).map (fun n => -(n : Int))
    | '+' :: rest => (parseDigits rest).map (fun n => (n : Int))
    | cs => (parseDigits cs).map (fun n => (n : Int))
  signed.bind (fun k =>
    if -(2 ^ 63) ≤ k ∧ k < 2 ^ 63 then some k else none)

/-- `QString::toLongLong` without an `ok` out-parameter: 0 on failure. -/
def toLongLongD (s : String) : Int := (toLongLongOpt s).getD 0

/-- The `/proc/meminfo` scan of the Linux `getPlatformTotalMemoryMB`
fallback: find the first line starting with `"MemTotal:"`; split it on
runs of whitespace; if it has at least two fields and the second parses,
return the kilobyte value divided by 1024 (truncating), else 0 (the
source `break`s out and falls through to `return 0`).  A missing record
also yields 0. -/
def parseMemTotalLines : List String → Int
  | [] => 0
  | l :: rest =>
    if strStartsWith l "MemTotal:" then
      match splitWsRuns l with
      | _ :: f1 :: _ =>
        match toLongLongOpt f1 with
        | some memKB => Int.tdiv memKB 1024
        | none => 0
      | _ => 0
    else parseMemTotalLines rest

/-- Linux `SystemMemoryManager::getPlatformTotalMemoryMB`: `sysinfo`
first (`totalram * mem_unit / (1024*1024)`), then the `/proc/meminfo`
scan, then the sentinel 0. -/
def getPlatformTotalMemoryMB_linux (si : Option SysInfoResult)
    (meminfo : Option (List String)) : Int :=
  match si with
  | some info => Int.ofNat (info.totalram * info.mem_unit / (1024 * 1024))
  | none =>
    match meminfo with
    | some lines => parseMemTotalLines lines
    | none => 0

/-- Accumulators of the Linux `getPlatformAvailableMemoryMB` meminfo
loop. -/
structure AvailAcc where
  memAvailableKB : Int
  memFreeKB : Int
  buffersKB : Int
  cachedKB : Int
deriving Repr, DecidableEq

/-- One iteration of the meminfo loop of the Linux
`getPlatformAvailableMemoryMB`: an `else if` chain over the line prefix,
each branch overwriting its accumulator when the line has a second
field (`parts[1].toLongLong()` without an `ok` check: 0 on failure). -/
def scanAvailLine (l : String) (acc : AvailAcc) : AvailAcc :=
  if strStartsWith l "MemAvailable:" then
    match splitWsRuns l with
    | _ :: f1 :: _ => { acc with memAvailableKB := toLongLongD f1 }
    | _ => acc
  else if strStartsWith l "MemFree:" then
    match splitWsRuns l with
    | _ :: f1 :: _ => { acc with memFreeKB := toLongLongD f1 }
    | _ => acc
  else if strStartsWith l "Buffers:" then
    match splitWsRuns l with
    | _ :: f1 :: _ => { acc with buffersKB := toLongLongD f1 }
    | _ => acc
  else if strStartsWith l "Cached:" then
    match splitWsRuns l with
    | _ :: f1 :: _ => { acc with cachedKB := toLongLongD f1 }
    | _ => acc
  else acc

/-- The whole meminfo loop of the Linux `getPlatformAvailableMemoryMB`
(it scans every line; no early `break`). -/
def scanAvailLines : List String → AvailAcc → AvailAcc
  | [], acc => acc
  | l :: rest, acc => scanAvailLines rest (scanAvailLine l acc)

/-- Linux `SystemMemoryManager::getPlatformAvailableMemoryMB`: `sysinfo`
first (`(freeram + bufferram) * mem_unit / (1024*1024)`), then the
meminfo scan preferring `MemAvailable`, estimating from
`MemFree + Buffers + Cached` otherwise, then the sentinel 0. -/
def getPlatformAvailableMemoryMB_linux (si : Option SysInfoResult)
    (meminfo : Option (List String)) : Int :=
  match si with
  | some info =>
    Int.ofNat ((info.freeram + info.bufferram) * info.mem_unit / (1024 * 1024))
  | none =>
    match meminfo with
    | some lines =>
      let acc := scanAvailLines lines ⟨0, 0, 0, 0⟩
      if acc.memAvailableKB > 0 then Int.tdiv acc.memAvailableKB 1024
      else if acc.memFreeKB > 0 then
        Int.tdiv (acc.memFreeKB + acc.buffersKB + acc.cachedKB) 1024
      else 0
    | none => 0

/-- Unknown-platform `getPlatformTotalMemoryMB`: always the sentinel 0
("Will trigger fallback to 4GB assumption"). -/
def getPlatformTotalMemoryMB_unknown : Int := 0

/-- Unknown-platform `getPlatformAvailableMemoryMB`: always 0. -/
def getPlatformAvailableMemoryMB_unknown : Int := 0

end SystemMemoryManager

open SystemMemoryManager

/-! ### Helper lemmas -/

/-- The final clamp always lands in the configured byte bounds. -/
theorem clamp_mem (x : Int) :
    MIN_SYNC_INTERVAL_BYTES ≤
      max MIN_SYNC_INTERVAL_BYTES (min MAX_SYNC_INTERVAL_BYTES x) ∧
    max MIN_SYNC_INTERVAL_BYTES (min MAX_SYNC_INTERVAL_BYTES x) ≤
      MAX_SYNC_INTERVAL_BYTES := by
  refine ⟨le_max_left _ _, max_le ?_ (min_le_left _ _)⟩
  norm_num [MIN_SYNC_INTERVAL_BYTES, MAX_SYNC_INTERVAL_BYTES]

/-- Whatever tier is chosen, the byte field is a clamp of some value. -/
theorem syncIntervalBytes_eq_clamp (T : Int) :
    ∃ x, (calculateSyncConfiguration T).syncIntervalBytes =
      max MIN_SYNC_INTERVAL_BYTES (min MAX_SYNC_INTERVAL_BYTES x) := by
  simp only [calculateSyncConfiguration]
  split_ifs <;> exact ⟨_, rfl⟩

/-- The byte field of any computed configuration is within bounds. -/
theorem calculateSyncConfiguration_bounds (T : Int) :
    MIN_SYNC_INTERVAL_BYTES ≤ (calculateSyncConfiguration T).syncIntervalBytes ∧
    (calculateSyncConfiguration T).syncIntervalBytes ≤ MAX_SYNC_INTERVAL_BYTES := by
  obtain ⟨x, hx⟩ := syncIntervalBytes_eq_clamp T
  rw [hx]
  exact clamp_mem x

/-- A populated cache is returned as-is, with no probe invocation. -/
theorem getTotalMemoryMB_of_cached (env : Env) (st : MgrState)
    (h : st.cachedTotalMemoryMB ≠ -1) :
    getTotalMemoryMB env st = ⟨st.cachedTotalMemoryMB, st, 0, 0⟩ := by
  simp [getTotalMemoryMB, h]

/-- The cache after a `getTotalMemoryMB` call holds the returned value. -/
theorem getTotalMemoryMB_state_cache (env : Env) (st : MgrState) :
    (getTotalMemoryMB env st).state.cachedTotalMemoryMB =
      (getTotalMemoryMB env st).value := by
  simp only [getTotalMemoryMB]
  split <;> rfl

/-- After any `getTotalMemoryMB` call the cache is populated. -/
theorem getTotalMemoryMB_state_ne (env : Env) (st : MgrState) :
    (getTotalMemoryMB env st).state.cachedTotalMemoryMB ≠ -1 := by
  simp only [getTotalMemoryMB]
  split_ifs with h1 h2 <;> simp_all
  omega

/-- Unfolding a first-time (cache-absent) call. -/
theorem getTotalMemoryMB_fresh (env : Env) :
    getTotalMemoryMB env initialState =
      ⟨if env.platformTotalMemoryMB ≤ 0 then 4096 else env.platformTotalMemoryMB,
       ⟨if env.platformTotalMemoryMB ≤ 0 then 4096
        else env.platformTotalMemoryMB⟩, 1, 0⟩ := by
  simp [getTotalMemoryMB, initialState]

/-- The first call returns a strictly positive total. -/
theorem getTotalMemoryMB_fresh_value_pos (env : Env) :
    0 < (getTotalMemoryMB env initialState).value := by
  rw [getTotalMemoryMB_fresh]
  dsimp
  split_ifs with h <;> omega

/-- A second call right after a first one re-returns the cached value and
does not probe. -/
theorem getTotalMemoryMB_stable (env : Env) (st : MgrState) :
    getTotalMemoryMB env (getTotalMemoryMB env st).state =
      ⟨(getTotalMemoryMB env st).value, (getTotalMemoryMB env st).state, 0, 0⟩ := by
  rw [getTotalMemoryMB_of_cached env _ (getTotalMemoryMB_state_ne env st),
      getTotalMemoryMB_state_cache]

/-- With a populated cache, any number of further calls leaves the state
unchanged, performs no probe, and keeps returning the cached value. -/
theorem runGetTotalCalls_of_cached (env : Env) (st : MgrState)
    (h : st.cachedTotalMemoryMB ≠ -1) (n : Nat) :
    runGetTotalCalls env st n = (st, 0, List.replicate n st.cachedTotalMemoryMB) := by
  induction n with
  | zero => rfl
  | succ m ih =>
    simp only [runGetTotalCalls, getTotalMemoryMB_of_cached env st h, ih,
      List.replicate_succ]

/-- Lines without the `MemTotal:` key are skipped by the total scan. -/
theorem parseMemTotalLines_append (pre rest : List String)
    (h : ∀ p ∈ pre, strStartsWith p "MemTotal:" = false) :
    parseMemTotalLines (pre ++ rest) = parseMemTotalLines rest := by
  induction pre with
  | nil => rfl
  | cons p ps ih =>
    have hp := h p (List.mem_cons_self ..)
    simp only [List.cons_append, parseMemTotalLines, hp]
    simp only [Bool.false_eq_true, if_false]
    exact ih fun x hx => h x (List.mem_cons_of_mem _ hx)

/-- A line with neither the `MemAvailable:` nor the `MemFree:` key leaves
those two accumulators of the availability scan unchanged. -/
theorem scanAvailLine_preserves (l : String) (acc : AvailAcc)
    (h1 : strStartsWith l "MemAvailable:" = false)
    (h2 : strStartsWith l "MemFree:" = false) :
    (scanAvailLine l acc).memAvailableKB = acc.memAvailableKB ∧
    (scanAvailLine l acc).memFreeKB = acc.memFreeKB := by
  simp only [scanAvailLine, h1, h2, Bool.false_eq_true, if_false]
  split_ifs <;> (try constructor) <;> (try rfl) <;> split <;> rfl

/-- Over a whole file with neither key, those accumulators are untouched. -/
theorem scanAvailLines_preserves (lines : List String) (acc : AvailAcc)
    (h : ∀ l ∈ lines, strStartsWith l "MemAvailable:" = false ∧
      strStartsWith l "MemFree:" = false) :
    (scanAvailLines lines acc).memAvailableKB = acc.memAvailableKB ∧
    (scanAvailLines lines acc).memFreeKB = acc.memFreeKB := by
  induction lines generalizing acc with
  | nil => exact ⟨rfl, rfl⟩
  | cons l rest ih =>
    obtain ⟨h1, h2⟩ := h l (List.mem_cons_self ..)
    have hline := scanAvailLine_preserves l acc h1 h2
    have htail := ih (scanAvailLine l acc) fun x hx => h x (List.mem_cons_of_mem _ hx)
    exact ⟨htail.1.trans hline.1, htail.2.trans hline.2⟩

/-! ### Claim theorems -/

/-- C1: the pre-clamp interval and time interval per tier — Low
(`T < LOW_MEMORY_THRESHOLD_MB`): `max(16, T / 64)` MB and 3000 ms;
Medium: `max(32, T / 80)` MB and `DEFAULT_SYNC_INTERVAL_MS`; High
(`T ≥ HIGH_MEMORY_THRESHOLD_MB`): `min(256, max(64, T / 64))` MB and
7000 ms; the MB value is scaled by 1024·1024 and clamped to the byte
bounds; with the example constants, T = 2048, 8192, 65536 and 512 give
the concrete bytes/ms values the claim lists. -/
theorem calculateSyncConfiguration_tier_formulas :
    (∀ T : Int, T < LOW_MEMORY_THRESHOLD_MB →
      (calculateSyncConfiguration T).syncIntervalBytes =
        max MIN_SYNC_INTERVAL_BYTES (min MAX_SYNC_INTERVAL_BYTES
          (max 16 (Int.tdiv T 64) * 1024 * 1024)) ∧
      (calculateSyncConfiguration T).syncIntervalMs = 3000) ∧
    (∀ T : Int, LOW_MEMORY_THRESHOLD_MB ≤ T → T < HIGH_MEMORY_THRESHOLD_MB →
      (calculateSyncConfiguration T).syncIntervalBytes =
        max MIN_SYNC_INTERVAL_BYTES (min MAX_SYNC_INTERVAL_BYTES
          (max 32 (Int.tdiv T 80) * 1024 * 1024)) ∧
      (calculateSyncConfiguration T).syncIntervalMs = DEFAULT_SYNC_INTERVAL_MS) ∧
    (∀ T : Int, HIGH_MEMORY_THRESHOLD_MB ≤ T →
      (calculateSyncConfiguration T).syncIntervalBytes =
        max MIN_SYNC_INTERVAL_BYTES (min MAX_SYNC_INTERVAL_BYTES
          (min 256 (max 64 (Int.tdiv T 64)) * 1024 * 1024)) ∧
      (calculateSyncConfiguration T).syncIntervalMs = 7000) ∧
    (calculateSyncConfiguration 2048).syncIntervalBytes = 33554432 ∧
    (calculateSyncConfiguration 2048).syncIntervalMs = 3000 ∧
    (calculateSyncConfiguration 8192).syncIntervalBytes = 106954752 ∧
    (calculateSyncConfiguration 8192).syncIntervalMs = 5000 ∧
    (calculateSyncConfiguration 65536).syncIntervalBytes = 268435456 ∧
    (calculateSyncConfiguration 65536).syncIntervalMs = 7000 ∧
    (calculateSyncConfiguration 512).syncIntervalBytes = 16777216 ∧
    (calculateSyncConfiguration 512).syncIntervalMs = 3000 := by
  refine ⟨?_, ?_, ?_, by decide⟩
  · intro T h
    simp only [calculateSyncConfiguration]
    rw [if_pos h]
    exact ⟨rfl, rfl⟩
  · intro T h1 h2
    simp only [calculateSyncConfiguration]
    rw [if_neg (not_lt.mpr h1), if_pos h2]
    exact ⟨rfl, rfl⟩
  · intro T h
    simp only [calculateSyncConfiguration]
    rw [if_neg (not_lt.mpr (le_trans (by norm_num
      [LOW_MEMORY_THRESHOLD_MB, HIGH_MEMORY_THRESHOLD_MB]) h)),
      if_neg (not_lt.mpr h)]
    exact ⟨rfl, rfl⟩

/-- Witness for C1: the tier formulas applied at T = 2048 (Low),
T = 8192 (Medium) and T = 65536 (High). -/
theorem calculateSyncConfiguration_tier_formulas_witness :
    ((calculateSyncConfiguration 2048).syncIntervalBytes =
        max MIN_SYNC_INTERVAL_BYTES (min MAX_SYNC_INTERVAL_BYTES
          (max 16 (Int.tdiv 2048 64) * 1024 * 1024)) ∧
      (calculateSyncConfiguration 2048).syncIntervalMs = 3000) ∧
    ((calculateSyncConfiguration 8192).syncIntervalBytes =
        max MIN_SYNC_INTERVAL_BYTES (min MAX_SYNC_INTERVAL_BYTES
          (max 32 (Int.tdiv 8192 80) * 1024 * 1024)) ∧
      (calculateSyncConfiguration 8192).syncIntervalMs = DEFAULT_SYNC_INTERVAL_MS) ∧
    ((calculateSyncConfiguration 65536).syncIntervalBytes =
        max MIN_SYNC_INTERVAL_BYTES (min MAX_SYNC_INTERVAL_BYTES
          (min 256 (max 64 (Int.tdiv 65536 64)) * 1024 * 1024)) ∧
      (calculateSyncConfiguration 65536).syncIntervalMs = 7000) :=
  ⟨calculateSyncConfiguration_tier_formulas.1 2048 (by decide),
   calculateSyncConfiguration_tier_formulas.2.1 8192 (by decide) (by decide),
   calculateSyncConfiguration_tier_formulas.2.2.1 65536 (by decide)⟩

/-- C2: for every detected total T > 0, and likewise through the
stateful entry point from any state (hence also on the fallback path),
the returned configuration has `syncIntervalBytes` within
`[MIN_SYNC_INTERVAL_BYTES, MAX_SYNC_INTERVAL_BYTES]`; the computation is
a total function, so no error ever reaches the caller. -/
theorem syncIntervalBytes_bounded :
    (∀ T : Int, 0 < T →
      MIN_SYNC_INTERVAL_BYTES ≤ (calculateSyncConfiguration T).syncIntervalBytes ∧
      (calculateSyncConfiguration T).syncIntervalBytes ≤ MAX_SYNC_INTERVAL_BYTES) ∧
    (∀ (env : Env) (st : MgrState),
      MIN_SYNC_INTERVAL_BYTES ≤
        (calculateSyncConfigurationM env st).1.syncIntervalBytes ∧
      (calculateSyncConfigurationM env st).1.syncIntervalBytes ≤
        MAX_SYNC_INTERVAL_BYTES) :=
  ⟨fun T _ => calculateSyncConfiguration_bounds T,
   fun env st => calculateSyncConfiguration_bounds (getTotalMemoryMB env st).value⟩

/-- Witness for C2: the bounds at the concrete total T = 2048. -/
theorem syncIntervalBytes_bounded_witness :
    MIN_SYNC_INTERVAL_BYTES ≤ (calculateSyncConfiguration 2048).syncIntervalBytes ∧
    (calculateSyncConfiguration 2048).syncIntervalBytes ≤ MAX_SYNC_INTERVAL_BYTES :=
  syncIntervalBytes_bounded.1 2048 (by decide)

/-- C4: tier boundaries are inclusive below and exclusive above — a
total exactly at `LOW_MEMORY_THRESHOLD_MB` selects the Medium tier (its
label and `DEFAULT_SYNC_INTERVAL_MS`), and a total exactly at
`HIGH_MEMORY_THRESHOLD_MB` selects the High tier (its label and
7000 ms). -/
theorem tier_boundaries_inclusive_exclusive :
    (calculateSyncConfiguration LOW_MEMORY_THRESHOLD_MB).memoryTier =
      "Medium memory (4096MB)" ∧
    (calculateSyncConfiguration LOW_MEMORY_THRESHOLD_MB).syncIntervalMs =
      DEFAULT_SYNC_INTERVAL_MS ∧
    (calculateSyncConfiguration HIGH_MEMORY_THRESHOLD_MB).memoryTier =
      "High memory (16384MB)" ∧
    (calculateSyncConfiguration HIGH_MEMORY_THRESHOLD_MB).syncIntervalMs = 7000 := by
  decide

/-- C10: `syncIntervalBytes` is not monotone in the total: T1 = 4095
(Low tier) yields 66,060,288 bytes while the strictly larger T2 = 4096
(Medium tier) yields the strictly smaller 53,477,376 bytes. -/
theorem syncIntervalBytes_not_monotone :
    (4095 : Int) < 4096 ∧
    (calculateSyncConfiguration 4095).syncIntervalBytes = 66060288 ∧
    (calculateSyncConfiguration 4096).syncIntervalBytes = 53477376 ∧
    (calculateSyncConfiguration 4096).syncIntervalBytes <
      (calculateSyncConfiguration 4095).syncIntervalBytes := by
  decide

/-- C3: for any non-positive probe result (detection failure, including
the unknown-platform probe, which is constantly 0), the engine caches
the fixed fallback 4096 and from then on behaves exactly as if the probe
had detected 4096 MB: the whole call result (value, state, probe count)
coincides with the T = 4096 run, and the computed configuration is
`calculateSyncConfiguration 4096`; the failure is absorbed, not
propagated. -/
theorem detection_failure_fallback_4096 (env : Env)
    (h : env.platformTotalMemoryMB ≤ 0) :
    getTotalMemoryMB env initialState =
      getTotalMemoryMB ⟨4096, env.platformAvailableMemoryMB⟩ initialState ∧
    (getTotalMemoryMB env initialState).value = 4096 ∧
    (getTotalMemoryMB env initialState).state.cachedTotalMemoryMB = 4096 ∧
    (calculateSyncConfigurationM env initialState).1 =
      calculateSyncConfiguration 4096 ∧
    getPlatformTotalMemoryMB_unknown = 0 := by
  have hv : (getTotalMemoryMB env initialState).value = 4096 := by
    rw [getTotalMemoryMB_fresh]
    dsimp
    rw [if_pos h]
  refine ⟨?_, hv, ?_, ?_, rfl⟩
  · rw [getTotalMemoryMB_fresh, getTotalMemoryMB_fresh]
    dsimp
    rw [if_pos h]
  · rw [getTotalMemoryMB_state_cache, hv]
  · show calculateSyncConfiguration (getTotalMemoryMB env initialState).value = _
    rw [hv]

/-- Witness for C3: a probe reporting −7 MB is treated exactly like a
4096 MB detection. -/
theorem detection_failure_fallback_4096_witness :
    getTotalMemoryMB ⟨-7, 123⟩ initialState =
      getTotalMemoryMB ⟨4096, 123⟩ initialState ∧
    (getTotalMemoryMB ⟨-7, 123⟩ initialState).value = 4096 ∧
    (getTotalMemoryMB ⟨-7, 123⟩ initialState).state.cachedTotalMemoryMB = 4096 ∧
    (calculateSyncConfigurationM ⟨-7, 123⟩ initialState).1 =
      calculateSyncConfiguration 4096 ∧
    getPlatformTotalMemoryMB_unknown = 0 :=
  detection_failure_fallback_4096 ⟨-7, 123⟩ (by decide)

/-- C5: starting from the absent cache (−1), any sequence of
`getTotalMemoryMB` calls invokes the platform probe at most once — in
fact exactly once as soon as there is a call — the state after the
sequence is the state written by the first call, and every call in the
sequence returns the first call's value. -/
theorem platform_probe_at_most_once (env : Env) (n : Nat) :
    initialState.cachedTotalMemoryMB = -1 ∧
    (runGetTotalCalls env initialState n).2.1 ≤ 1 ∧
    (1 ≤ n → (runGetTotalCalls env initialState n).2.1 = 1) ∧
    (1 ≤ n → (runGetTotalCalls env initialState n).1 =
      (getTotalMemoryMB env initialState).state) ∧
    (∀ v ∈ (runGetTotalCalls env initialState n).2.2,
      v = (getTotalMemoryMB env initialState).value) := by
  cases n with
  | zero =>
    refine ⟨rfl, by norm_num [runGetTotalCalls], ?_, ?_, ?_⟩
    · intro h
      omega
    · intro h
      omega
    · intro v hv
      simp [runGetTotalCalls] at hv
  | succ m =>
    have hcache := getTotalMemoryMB_state_cache env initialState
    have hpos := getTotalMemoryMB_fresh_value_pos env
    have hne : (getTotalMemoryMB env initialState).state.cachedTotalMemoryMB ≠ -1 :=
      getTotalMemoryMB_state_ne env initialState
    have hrun := runGetTotalCalls_of_cached env
      (getTotalMemoryMB env initialState).state hne m
    have hprobe : (getTotalMemoryMB env initialState).totalProbeCalls = 1 := by
      rw [getTotalMemoryMB_fresh]
    refine ⟨rfl, ?_, fun _ => ?_, fun _ => ?_, ?_⟩
    · simp only [runGetTotalCalls, hrun, hprobe]
      omega
    · simp only [runGetTotalCalls, hrun, hprobe]
    · simp only [runGetTotalCalls, hrun]
    · intro v hv
      simp only [runGetTotalCalls, hrun, hcache] at hv
      rcases List.mem_cons.mp hv with h | h
      · exact h
      · exact List.eq_of_mem_replicate h

/-- Witness for C5: two consecutive calls against a 2048 MB probe: one
probe invocation in total, a stable state, and both calls returning the
first call's value. -/
theorem platform_probe_at_most_once_witness :
    (initialState.cachedTotalMemoryMB = -1 ∧
     (runGetTotalCalls ⟨2048, 0⟩ initialState 2).2.1 ≤ 1) ∧
    (runGetTotalCalls ⟨2048, 0⟩ initialState 2).2.1 = 1 ∧
    (runGetTotalCalls ⟨2048, 0⟩ initialState 2).1 =
      (getTotalMemoryMB ⟨2048, 0⟩ initialState).state ∧
    (2048 : Int) = (getTotalMemoryMB ⟨2048, 0⟩ initialState).value :=
  ⟨⟨(platform_probe_at_most_once ⟨2048, 0⟩ 2).1,
    (platform_probe_at_most_once ⟨2048, 0⟩ 2).2.1⟩,
   (platform_probe_at_most_once ⟨2048, 0⟩ 2).2.2.1 (by decide),
   (platform_probe_at_most_once ⟨2048, 0⟩ 2).2.2.2.1 (by decide),
   (platform_probe_at_most_once ⟨2048, 0⟩ 2).2.2.2.2 2048 (by decide)⟩

/-- C8: `calculateSyncConfiguration()` is a pure function of the cached
total: a second call from the state left by a first call returns the
identical configuration (all fields) and state, and performs no
re-detection (zero probe invocations). -/
theorem calculateSyncConfiguration_idempotent (env : Env) (st : MgrState) :
    (calculateSyncConfigurationM env ((calculateSyncConfigurationM env st).2)).1 =
      (calculateSyncConfigurationM env st).1 ∧
    (calculateSyncConfigurationM env ((calculateSyncConfigurationM env st).2)).2 =
      (calculateSyncConfigurationM env st).2 ∧
    (getTotalMemoryMB env ((calculateSyncConfigurationM env st).2)).totalProbeCalls
      = 0 := by
  have hs := getTotalMemoryMB_stable env st
  refine ⟨?_, ?_, ?_⟩
  · show calculateSyncConfiguration
      (getTotalMemoryMB env (getTotalMemoryMB env st).state).value =
        calculateSyncConfiguration (getTotalMemoryMB env st).value
    rw [hs]
  · show (getTotalMemoryMB env (getTotalMemoryMB env st).state).state =
      (getTotalMemoryMB env st).state
    rw [hs]
  · show (getTotalMemoryMB env (getTotalMemoryMB env st).state).totalProbeCalls = 0
    rw [hs]

/-- C9: `getAvailableMemoryMB` is exactly `getTotalMemoryMB` — same
value, same state transition, same probe accounting — and it never
invokes the platform available-memory probe. -/
theorem getAvailableMemoryMB_eq_getTotalMemoryMB :
    (∀ (env : Env) (st : MgrState),
      getAvailableMemoryMB env st = getTotalMemoryMB env st) ∧
    (∀ (env : Env) (st : MgrState),
      (getAvailableMemoryMB env st).availProbeCalls = 0) := by
  refine ⟨fun env st => rfl, fun env st => ?_⟩
  simp only [getAvailableMemoryMB, getTotalMemoryMB]
  split
  · rfl
  · rfl

/-- C6: the available-memory side — the sync configuration is a function
of the total-memory path only (changing the available-memory probe value
never changes it, and the policy path performs zero available-probe
invocations), while the platform-level Linux available-memory query
follows the analogous primary/fallback pattern: primary `sysinfo`
arithmetic when it succeeds, the `/proc/meminfo` text fallback
otherwise, and the non-positive sentinel 0 on failure (file unreadable,
or no usable `MemAvailable:`/`MemFree:` record); the unknown-platform
variant is constantly 0. -/
theorem availableMemory_not_into_policy :
    (∀ (pt a₁ a₂ : Int) (st : MgrState),
      (calculateSyncConfigurationM ⟨pt, a₁⟩ st).1 =
        (calculateSyncConfigurationM ⟨pt, a₂⟩ st).1) ∧
    (∀ (env : Env) (st : MgrState),
      (getTotalMemoryMB env st).availProbeCalls = 0) ∧
    (∀ (info : SysInfoResult) (mi : Option (List String)),
      getPlatformAvailableMemoryMB_linux (some info) mi =
        Int.ofNat ((info.freeram + info.bufferram) * info.mem_unit /
          (1024 * 1024))) ∧
    getPlatformAvailableMemoryMB_linux none none = 0 ∧
    (∀ lines : List String,
      (∀ l ∈ lines, strStartsWith l "MemAvailable:" = false ∧
        strStartsWith l "MemFree:" = false) →
      getPlatformAvailableMemoryMB_linux none (some lines) = 0) ∧
    getPlatformAvailableMemoryMB_unknown = 0 := by
  refine ⟨fun pt a₁ a₂ st => rfl, fun env st => ?_, fun info mi => rfl, rfl,
    ?_, rfl⟩
  · simp only [getTotalMemoryMB]
    split
    · rfl
    · rfl
  · intro lines h
    have hp := scanAvailLines_preserves lines ⟨0, 0, 0, 0⟩ h
    simp [getPlatformAvailableMemoryMB_linux, hp.1, hp.2]

/-- Witness for C6: a meminfo file with neither a `MemAvailable:` nor a
`MemFree:` record makes the fallback return the sentinel 0. -/
theorem availableMemory_not_into_policy_witness :
    getPlatformAvailableMemoryMB_linux none
      (some ["SwapTotal: 0 kB", "Buffers: 7 kB"]) = 0 :=
  availableMemory_not_into_policy.2.2.2.2.1
    ["SwapTotal: 0 kB", "Buffers: 7 kB"] (by decide)

/-- C7: on the Linux total-memory fallback (primary `sysinfo` failed),
the file scan is used verbatim; an unreadable file yields 0; a file with
no `MemTotal:` record yields 0; when the first `MemTotal:` record splits
into at least two whitespace-separated fields with a parseable second
field `k`, the result is `k / 1024` truncated; a record that is too
short, or whose second field fails to parse, yields the sentinel 0
instead of crashing. -/
theorem linux_meminfo_total_fallback :
    (∀ lines : List String,
      getPlatformTotalMemoryMB_linux none (some lines) =
        parseMemTotalLines lines) ∧
    getPlatformTotalMemoryMB_linux none none = 0 ∧
    (∀ lines : List String,
      (∀ l ∈ lines, strStartsWith l "MemTotal:" = false) →
      parseMemTotalLines lines = 0) ∧
    (∀ (pre post : List String) (l p0 f1 : String) (ps : List String) (k : Int),
      (∀ p ∈ pre, strStartsWith p "MemTotal:" = false) →
      strStartsWith l "MemTotal:" = true →
      splitWsRuns l = p0 :: f1 :: ps →
      toLongLongOpt f1 = some k →
      parseMemTotalLines (pre ++ l :: post) = Int.tdiv k 1024) ∧
    (∀ (pre post : List String) (l : String),
      (∀ p ∈ pre, strStartsWith p "MemTotal:" = false) →
      strStartsWith l "MemTotal:" = true →
      (splitWsRuns l).length < 2 →
      parseMemTotalLines (pre ++ l :: post) = 0) ∧
    (∀ (pre post : List String) (l p0 f1 : String) (ps : List String),
      (∀ p ∈ pre, strStartsWith p "MemTotal:" = false) →
      strStartsWith l "MemTotal:" = true →
      splitWsRuns l = p0 :: f1 :: ps →
      toLongLongOpt f1 = none →
      parseMemTotalLines (pre ++ l :: post) = 0) := by
  refine ⟨fun lines => rfl, rfl, ?_, ?_, ?_, ?_⟩
  · intro lines h
    have hempty := parseMemTotalLines_append lines [] h
    simpa using hempty
  · intro pre post l p0 f1 ps k hpre hl hsplit hparse
    rw [parseMemTotalLines_append pre _ hpre]
    simp [parseMemTotalLines, hl, hsplit, hparse]
  · intro pre post l hpre hl hlen
    rw [parseMemTotalLines_append pre _ hpre]
    rcases hsp : splitWsRuns l with _ | ⟨p0, _ | ⟨f1, ps⟩⟩
    · simp [parseMemTotalLines, hl, hsp]
    · simp [parseMemTotalLines, hl, hsp]
    · rw [hsp] at hlen
      simp only [List.length_cons] at hlen
      omega
  · intro pre post l p0 f1 ps hpre hl hsplit hparse
    rw [parseMemTotalLines_append pre _ hpre]
    simp [parseMemTotalLines, hl, hsplit, hparse]

/-- Witness for C7: the malformed-record cases at concrete fixture text —
a missing record, a well-formed record after a skipped line, a record
with no second field, and a non-numeric second field. -/
theorem linux_meminfo_total_fallback_witness :
    parseMemTotalLines ["MemFree: 1 kB"] = 0 ∧
    parseMemTotalLines (["MemFree: 1 kB"] ++ "MemTotal: 2048 kB" ::
      ["SwapTotal: 0 kB"]) = Int.tdiv 2048 1024 ∧
    parseMemTotalLines ([] ++ "MemTotal:" :: []) = 0 ∧
    parseMemTotalLines ([] ++ "MemTotal: abc kB" :: []) = 0 :=
  ⟨linux_meminfo_total_fallback.2.2.1 ["MemFree: 1 kB"] (by decide),
   linux_meminfo_total_fallback.2.2.2.1 ["MemFree: 1 kB"] ["SwapTotal: 0 kB"]
     "MemTotal: 2048 kB" "MemTotal:" "2048" ["kB"] 2048
     (by decide) (by decide) (by decide) (by decide),
   linux_meminfo_total_fallback.2.2.2.2.1 [] [] "MemTotal:"
     (by decide) (by decide) (by decide),
   linux_meminfo_total_fallback.2.2.2.2.2 [] [] "MemTotal: abc kB"
     "MemTotal:" "abc" ["kB"] (by decide) (by decide) (by decide) (by decide)⟩
